import Mathlib

/-!
Verification development for the T+1 stock-analysis orchestration core
(`llm_service.py`, `analysis_framework.py`, `main.py`).

The Python code is shallowly embedded: Python numbers (ints and floats as
they occur here: parsed decimals, never float arithmetic) are modelled as
`Rat`; Python exceptions as an explicit error type threaded through
`Except`; the module-global cache `llm_cache` and the sequence of
language-model invocations as an explicit state record; the JSON handling
(`json.loads` / `json.dump`) as an executable parser and printer over a
JSON value type.  Concretely evaluated rationals are always built with
`mkRat`, which reduces in the kernel.
-/

namespace TTrading

/- Named characters, used instead of literals where the surrounding
   syntax would be awkward. -/

def lbrace : Char := Char.ofNat 123

def rbrace : Char := Char.ofNat 125

def quoteChar : Char := Char.ofNat 34

def backslashChar : Char := Char.ofNat 92

/-- JSON values, the model of what Python's `json.loads` returns
(numbers collapse ints and floats into `Rat`, as the code only ever
coerces them with `float(...)`). -/
inductive JVal where
  | null
  | boolean (b : Bool)
  | num (q : Rat)
  | str (s : String)
  | arr (elems : List JVal)
  | obj (fields : List (String × JVal))

/-- Python exceptions that the modelled code can raise or catch. -/
inductive PyErr where
  | jsonDecodeError
  | valueError
  | typeError
  | attributeError
  | keyError
  | backendError
  deriving DecidableEq, Repr

def pyErrString : PyErr → String
  | .jsonDecodeError => "JSONDecodeError"
  | .valueError => "ValueError"
  | .typeError => "TypeError"
  | .attributeError => "AttributeError"
  | .keyError => "KeyError"
  | .backendError => "BackendError"

/-! ### A model of `json.loads`

Recursive-descent parser over the character list, with fuel for
termination.  It follows the JSON grammar as `json.loads` accepts it
(objects, arrays, strings with the standard escapes, numbers with
optional fraction and exponent, `true`/`false`/`null`); the non-finite
extensions `NaN`/`Infinity` are outside the `Rat` model and rejected.
Duplicate object keys keep the last occurrence, as Python dicts do. -/

/-- JSON whitespace, by code point: space, tab, line feed, carriage
return. -/
def isJsonWs (c : Char) : Bool :=
  c.toNat = 32 || c.toNat = 9 || c.toNat = 10 || c.toNat = 13

def skipWs : List Char → List Char
  | [] => []
  | c :: tl => if isJsonWs c then skipWs tl else c :: tl

/-- Decimal digit test, by code point (48–57). -/
def digitQ (c : Char) : Bool := 47 < c.toNat && c.toNat < 58

def digitVal (c : Char) : Nat := c.toNat - 48

/-- Value of one hex digit, by code-point range. -/
def hexVal (c : Char) : Option Nat :=
  let n := c.toNat
  if 47 < n ∧ n < 58 then some (n - 48)
  else if 96 < n ∧ n < 103 then some (n - 87)
  else if 64 < n ∧ n < 71 then some (n - 55)
  else none

/-- Consume a run of decimal digits, returning their value and count. -/
def takeDigits : List Char → Nat → Nat → (Nat × Nat × List Char)
  | [], acc, n => (acc, n, [])
  | c :: tl, acc, n =>
    if digitQ c then takeDigits tl (10 * acc + digitVal c) (n + 1)
    else (acc, n, c :: tl)

/-- Parse the body of a JSON string after the opening quote. -/
def parseStrBody : Nat → List Char → List Char → Option (String × List Char)
  | 0, _, _ => none
  | _, [], _ => none
  | fuel + 1, c :: cs, acc =>
    if c = quoteChar then some (String.mk acc.reverse, cs)
    else if c = backslashChar then
      match cs with
      | [] => none
      | e :: cs' =>
        if e = quoteChar then parseStrBody fuel cs' (quoteChar :: acc)
        else if e = backslashChar then parseStrBody fuel cs' (backslashChar :: acc)
        else if e = '/' then parseStrBody fuel cs' ('/' :: acc)
        else if e = 'b' then parseStrBody fuel cs' (Char.ofNat 8 :: acc)
        else if e = 'f' then parseStrBody fuel cs' (Char.ofNat 12 :: acc)
        else if e = 'n' then parseStrBody fuel cs' ('\n' :: acc)
        else if e = 'r' then parseStrBody fuel cs' ('\r' :: acc)
        else if e = 't' then parseStrBody fuel cs' ('\t' :: acc)
        else if e = 'u' then
          match cs' with
          | h1 :: h2 :: h3 :: h4 :: cs'' =>
            match hexVal h1, hexVal h2, hexVal h3, hexVal h4 with
            | some a, some b, some c3, some d =>
              parseStrBody fuel cs'' (Char.ofNat (((a * 16 + b) * 16 + c3) * 16 + d) :: acc)
            | _, _, _, _ => none
          | _ => none
        else none
    else if c.toNat < 32 then none
    else parseStrBody fuel cs (c :: acc)

/-- True when the list opens with an explicit minus sign. -/
def minusQ (cs : List Char) : Bool := cs.head? = some (Char.ofNat 45)

/-- True when the list opens with an explicit plus or minus sign. -/
def signQ (cs : List Char) : Bool :=
  cs.head? = some (Char.ofNat 45) || cs.head? = some (Char.ofNat 43)

/-- Assemble `±(ip.frac) × 10^e10` as an exact rational, with only
`mkRat` and integer arithmetic (so it evaluates in the kernel). -/
def assembleNum (neg : Bool) (ip fracVal fracLen : Nat) (e10 : Int) : Rat :=
  let mag : Int := (ip * 10 ^ fracLen + fracVal : Nat)
  let mant : Int := if neg then -mag else mag
  if 0 ≤ e10 then mkRat (mant * (10 ^ e10.toNat : Nat)) 1
  else mkRat mant (10 ^ (-e10).toNat)

/-- Handle the optional exponent of a JSON number and assemble the
value. -/
def parseNumExp (neg : Bool) (ip fracVal fracLen : Nat) (cs : List Char) :
    Option (Rat × List Char) :=
  match cs with
  | e :: rest =>
    if e = 'e' ∨ e = 'E' then
      let rest1 := if signQ rest then rest.tail else rest
      let (ev, el, rest2) := takeDigits rest1 0 0
      if el = 0 then none
      else some (assembleNum neg ip fracVal fracLen
        ((if minusQ rest then -(ev : Int) else ev) - fracLen), rest2)
    else some (assembleNum neg ip fracVal fracLen (-(fracLen : Int)), cs)
  | [] => some (assembleNum neg ip fracVal fracLen (-(fracLen : Int)), [])

/-- Digits, optional fraction and optional exponent of a JSON number,
the sign already stripped. -/
def parseNumAbs (neg : Bool) (cs1 : List Char) : Option (Rat × List Char) :=
  match cs1 with
  | c :: _ =>
    if ¬ digitQ c then none
    else
      let (ip, ipLen, cs2) := takeDigits cs1 0 0
      -- JSON forbids leading zeros: "0" alone or a nonzero leading digit
      if ipLen = 0 ∨ (1 < ipLen ∧ c = '0') then none
      else
        let (fracVal, fracLen, cs3) :=
          match cs2 with
          | '.' :: rest =>
            let (fv, fl, r) := takeDigits rest 0 0
            (fv, fl, r)
          | _ => (0, 0, cs2)
        match cs2 with
        | '.' :: _ =>
          if fracLen = 0 then none
          else parseNumExp neg ip fracVal fracLen cs3
        | _ => parseNumExp neg ip fracVal fracLen cs3
  | [] => none

/-- Parse a JSON number starting at the first character (sign or digit).
Returns the value as an exact rational. -/
def parseNum : List Char → Option (Rat × List Char)
  | '-' :: more => parseNumAbs true more
  | cs => parseNumAbs false cs

def expectLit (lit : List Char) (cs : List Char) : Option (List Char) :=
  match lit, cs with
  | [], rest => some rest
  | l :: ls, c :: rest => if c = l then expectLit ls rest else none
  | _ :: _, [] => none

mutual

/-- Parse one JSON value (after skipping leading whitespace). -/
def parseValue : Nat → List Char → Option (JVal × List Char)
  | 0, _ => none
  | fuel + 1, cs =>
    match skipWs cs with
    | [] => none
    | c :: rest =>
      if c = lbrace then
        match skipWs rest with
        | c' :: rest' =>
          if c' = rbrace then some (.obj [], rest')
          else parseMembers fuel (c' :: rest') []
        | [] => none
      else if c = '[' then
        match skipWs rest with
        | ']' :: rest' => some (.arr [], rest')
        | other => parseElems fuel other []
      else if c = quoteChar then
        match parseStrBody (fuel + 1) rest [] with
        | some (s, rest') => some (.str s, rest')
        | none => none
      else if c = 't' then
        (expectLit ['r', 'u', 'e'] rest).map (fun r => (.boolean true, r))
      else if c = 'f' then
        (expectLit ['a', 'l', 's', 'e'] rest).map (fun r => (.boolean false, r))
      else if c = 'n' then
        (expectLit ['u', 'l', 'l'] rest).map (fun r => (.null, r))
      else if c = Char.ofNat 45 ∨ digitQ c then
        (parseNum (c :: rest)).map (fun (q, r) => (.num q, r))
      else none

/-- Parse the elements of a non-empty JSON array. -/
def parseElems : Nat → List Char → List JVal → Option (JVal × List Char)
  | 0, _, _ => none
  | fuel + 1, cs, acc =>
    match parseValue fuel cs with
    | none => none
    | some (v, rest) =>
      match skipWs rest with
      | ',' :: rest' => parseElems fuel rest' (v :: acc)
      | ']' :: rest' => some (.arr (v :: acc).reverse, rest')
      | _ => none

/-- Parse the members of a non-empty JSON object. -/
def parseMembers : Nat → List Char → List (String × JVal) → Option (JVal × List Char)
  | 0, _, _ => none
  | fuel + 1, cs, acc =>
    match skipWs cs with
    | c :: rest =>
      if c = quoteChar then
        match parseStrBody (fuel + 1) rest [] with
        | none => none
        | some (k, rest1) =>
          match skipWs rest1 with
          | ':' :: rest2 =>
            match parseValue fuel rest2 with
            | none => none
            | some (v, rest3) =>
              match skipWs rest3 with
              | ',' :: rest4 => parseMembers fuel rest4 ((k, v) :: acc)
              | c5 :: rest5 =>
                if c5 = rbrace then some (.obj ((k, v) :: acc).reverse, rest5)
                else none
              | [] => none
          | _ => none
      else none
    | [] => none

end

/-- Model of `json.loads`: parse one value and require only whitespace
after it ("Extra data" otherwise); any failure is a `JSONDecodeError`. -/
def loads (s : String) : Except PyErr JVal :=
  match parseValue (2 * s.data.length + 8) s.data with
  | some (v, rest) =>
    if skipWs rest = [] then .ok v else .error .jsonDecodeError
  | none => .error .jsonDecodeError

/-- Lookup in a decoded JSON object with Python-dict semantics:
duplicate keys are resolved to the last occurrence. -/
def objLookup (kvs : List (String × JVal)) (key : String) : Option JVal :=
  kvs.foldl (fun acc kv => if kv.1 = key then some kv.2 else acc) none

/-! ### A model of Python's `float(...)` coercion

`float` succeeds on numbers and booleans, parses strings as decimal
literals (raising `ValueError` on malformed text), and raises
`TypeError` on `None`, lists and dicts.  The non-finite spellings
(`inf`, `nan`) have no `Rat` value and are outside the model (they are
mapped to `ValueError`); no claim depends on them. -/

/-- Parse the digits/fraction/exponent part of a Python float literal,
the sign having already been stripped (and passed in as `neg`); the
whole input must be consumed. -/
def pyFloatDigits (cs : List Char) (neg : Bool) : Option Rat :=
  let (ip, ipLen, cs1) := takeDigits cs 0 0
  let (fracVal, fracLen, cs2) :=
    match cs1 with
    | '.' :: rest =>
      let (fv, fl, r) := takeDigits rest 0 0
      (fv, fl, r)
    | _ => (0, 0, cs1)
  if ipLen = 0 ∧ fracLen = 0 then none
  else
    match cs2 with
    | e :: rest =>
      if e = 'e' ∨ e = 'E' then
        let rest1 := if signQ rest then rest.tail else rest
        let (ev, el, rest2) := takeDigits rest1 0 0
        if el = 0 ∨ rest2 ≠ [] then none
        else some (assembleNum neg ip fracVal fracLen
          ((if minusQ rest then -(ev : Int) else ev) - fracLen))
      else none
    | [] => some (assembleNum neg ip fracVal fracLen (-(fracLen : Int)))

/-- `float(s)` for a string `s`: strip surrounding whitespace, optional
sign, then a decimal literal; anything else raises `ValueError`. -/
def pyFloatOfString (s : String) : Except PyErr Rat :=
  let cs := (skipWs s.data).reverse
  let cs := (skipWs cs).reverse
  let body := if signQ cs then cs.tail else cs
  match pyFloatDigits body (minusQ cs) with
  | some q => .ok q
  | none => .error .valueError

/-- `float(v)` for a decoded JSON value. -/
def pyFloat : JVal → Except PyErr Rat
  | .num q => .ok q
  | .boolean b => .ok (if b then mkRat 1 1 else mkRat 0 1)
  | .str s => pyFloatOfString s
  | _ => .error .typeError

/-! ### `LLMService._parse_response` (src/llm_service.py, lines 110-139) -/

/-- Model of `re.search(r'\x7b.*\x7d', response, re.DOTALL)`: with a
greedy `.*` that also matches newlines, the match (when it exists) runs
from the first `\x7b` in the text to the last `\x7d`, and it exists
exactly when the last `\x7d` lies strictly after the first `\x7b`. -/
def jsonMatch (s : String) : Option String :=
  let cs := s.data
  match cs.findIdx? (· = lbrace) with
  | none => none
  | some i =>
    match cs.reverse.findIdx? (· = rbrace) with
    | none => none
    | some jr =>
      let j := cs.length - 1 - jr
      if i < j then some (String.mk ((cs.drop i).take (j - i + 1))) else none

/-- The structured recommendation dict built by `_parse_response` (and
by the fallback paths of `analyze_stock`).  The three text fields hold
whatever JSON value the model returned (Python keeps them untyped); the
numeric fields went through `float(...)`. -/
structure Rec where
  recommendation : JVal
  reason : JVal
  action : JVal
  predicted_price : Rat
  predicted_buy_price : Rat
  predicted_sell_price : Rat
  confidence : Rat

/-- The default returned when no JSON object is found or decoding fails:
`\x7b'recommendation': '保持', 'reason': '分析完成', 'action': '保持',
prices 0, 'confidence': 0.5\x7d`. -/
def defaultRecommendation : Rec :=
  { recommendation := .str "保持"
    reason := .str "分析完成"
    action := .str "保持"
    predicted_price := mkRat 0 1
    predicted_buy_price := mkRat 0 1
    predicted_sell_price := mkRat 0 1
    confidence := mkRat 1 2 }

/-- The `except (json.JSONDecodeError, ValueError)` clause of
`_parse_response` catches exactly these two exception classes
(`JSONDecodeError` is a subclass of `ValueError` in Python). -/
def caughtByParse : PyErr → Bool
  | .jsonDecodeError => true
  | .valueError => true
  | _ => false

/-- `result.get(k1, result.get(k2, 0))`: primary key, then the
`_T+1`-suffixed alternate, then the integer `0`. -/
def objGet2 (kvs : List (String × JVal)) (k1 k2 : String) : JVal :=
  (objLookup kvs k1).getD ((objLookup kvs k2).getD (.num (mkRat 0 1)))

namespace LLMService

/-- `LLMService._parse_response`.  The `try` block covers the regex
search, `json.loads` and the construction of the result dict (whose
value expressions are evaluated left to right, so the first failing
`float(...)` determines the exception); only `JSONDecodeError` and
`ValueError` are caught and turned into the default.  The result of a
raised-and-not-caught exception is `.error`. -/
def parse_response (response : String) : Except PyErr Rec :=
  let attempt : Except PyErr (Option Rec) :=
    match jsonMatch response with
    | none => .ok none
    | some m =>
      match loads m with
      | .error e => .error e
      | .ok v =>
        match v with
        | .obj kvs =>
          let recommendation := (objLookup kvs "建议").getD (.str "保持")
          let reason := (objLookup kvs "推荐原因").getD (.str "分析完成")
          let action := (objLookup kvs "动作").getD (.str "保持")
          match pyFloat (objGet2 kvs "预测价格" "预测价格_T+1") with
          | .error e => .error e
          | .ok predicted_price =>
            match pyFloat (objGet2 kvs "预测买入价格" "预测买入价格_T+1") with
            | .error e => .error e
            | .ok predicted_buy_price =>
              match pyFloat (objGet2 kvs "预测卖出价格" "预测卖出价格_T+1") with
              | .error e => .error e
              | .ok predicted_sell_price =>
                match pyFloat ((objLookup kvs "预测信心").getD (.num (mkRat (-1) 2))) with
                | .error e => .error e
                | .ok confidence =>
                  .ok (some
                    { recommendation := recommendation
                      reason := reason
                      action := action
                      predicted_price := predicted_price
                      predicted_buy_price := predicted_buy_price
                      predicted_sell_price := predicted_sell_price
                      confidence := confidence })
        -- `.get` on a non-dict raises `AttributeError`; unreachable here
        -- since a match starting with `\x7b` only decodes to an object.
        | _ => .error .attributeError
  match attempt with
  | .ok (some r) => .ok r
  | .ok none => .ok defaultRecommendation
  | .error e => if caughtByParse e then .ok defaultRecommendation else .error e

end LLMService

/-! ### Data model (typed views of the dicts flowing through the core)

`stock_data` is the realtime-quote dict from
`RealTimeStockDataFetcher.get_real_time_data`; only the fields the
orchestration core reads are modelled.  `pe` / `pb` stand for the
source's `pe_ratio` / `pb_ratio` keys and `openPrice` for `open` (a
Lean keyword).  `history_data` entries come from `stock_daily` rows and
`stock_info` from `stock_info` rows (`full_code` is a nullable
column). -/

structure StockData where
  code : String
  name : String
  current_price : Rat
  change_percent : Rat
  openPrice : Rat
  high : Rat
  low : Rat
  volume_hand : Int
  pe : Rat
  pb : Rat
  total_market_value : Rat
  circulating_market_value : Rat

structure HistoryBar where
  date : String
  openPrice : Rat
  high : Rat
  low : Rat
  close : Rat
  volume : Int
  pctChg : Rat

structure StockInfo where
  code : String
  name : String
  sector : String
  full_code : Option String

/-- Python's `round(x, 2)` (banker's rounding to two decimals); it only
feeds prompt text, never a proved value. -/
def pyRound2 (q : Rat) : Rat :=
  let t : Rat := q * 100
  let f : Int := t.floor
  let r : Rat := t - (f : Rat)
  let n : Int :=
    if r < mkRat 1 2 then f
    else if mkRat 1 2 < r then f + 1
    else if f % 2 = 0 then f else f + 1
  mkRat n 100

/-- `stock_info.get('sector', '') if stock_info else '未知'`. -/
def sectorOf : Option StockInfo → String
  | some i => i.sector
  | none => "未知"

/-! ### Prompts (transcribed from the source f-strings; their wording
is outside the core contract and no claim depends on it, but the
functions mirror which fields each stage reads).  Numeric rendering
uses `toString`, abstracting Python's float formatting. -/

def LLMService.build_analysis_prompt (stock_data : StockData)
    (history_data : List HistoryBar) (stock_info : Option StockInfo) : String :=
  let history_summary := String.intercalate "\n" ((history_data.take 3).map fun d =>
    d.date ++ ": " ++ toString (pyRound2 d.close) ++ "(" ++ toString d.pctChg ++ "%)")
  "\n请基于以下股票数据进行T+1选股分析：\n\n基本信息：\n- 代码: " ++ stock_data.code ++
  "\n- 名称: " ++ stock_data.name ++
  "\n- 行业: " ++ sectorOf stock_info ++
  "\n- PE: " ++ toString stock_data.pe ++
  "\n- PB: " ++ toString stock_data.pb ++
  "\n\n实时数据：\n- 现价: " ++ toString stock_data.current_price ++
  "\n- 涨跌幅: " ++ toString stock_data.change_percent ++
  "%\n- 成交量: " ++ toString stock_data.volume_hand ++
  "手\n\n近3天走势：\n" ++ history_summary ++
  "\n\n请给出T+1交易建议，包括：\n- recommendation: 买入/卖出/保持\n- reason: 推荐原因" ++
  "\n- action: 买/卖/保持\n- predicted_price: T+1预测价格\n- predicted_buy_price: T+1预测买入价" ++
  "\n- predicted_sell_price: T+1预测卖出价\n- confidence: 0-1的信心值" ++
  "\n\n请严格以JSON格式返回，不要添加其他内容。\n"

def analystSystemMessage : String :=
  "你是一个专业的股票分析师，需要基于股票历史数据、实时数据和基本面信息进行分析。"

/-! ### Cache and invocation state

`llm_cache` is a process-global dict keyed by
`f"\x7bcode\x7d_\x7bdate\x7d_\x7bmode\x7d"` whose values are
`(result, timestamp)` pairs; `CACHE_EXPIRY = 24 * 60 * 60`.  A store
overwrites the entry for its key; lookups see the latest store.  The
state also carries the list of language-model invocations made so far
(system message, user prompt), which is how "zero additional model
calls" is observed. -/

def CACHE_EXPIRY : Rat := mkRat 86400 1

abbrev Cache := List (String × (Rec × Rat))

def cacheGet (c : Cache) (k : String) : Option (Rec × Rat) :=
  (c.find? (·.1 = k)).map (·.2)

/-- `llm_cache[key] = (result, ts)`: later stores shadow earlier ones. -/
def cacheStore (c : Cache) (k : String) (v : Rec × Rat) : Cache :=
  (k, v) :: c

/-- The lookup pattern both analyzers use:
`if key in llm_cache: (r, ts) = llm_cache[key]; if now - ts < CACHE_EXPIRY: return r`.
Returns the entry exactly when it exists and is not expired. -/
def cacheFresh (c : Cache) (k : String) (now : Rat) : Option Rec :=
  match cacheGet c k with
  | some (r, ts) => if now - ts < CACHE_EXPIRY then some r else none
  | none => none

/-- The external world of one analyzer invocation: the language-model
backend (which may fail at any call), `time.strftime("%Y-%m-%d")` and
`time.time()` (a single instant per invocation). -/
structure LlmEnv where
  oracle : String → String → Except PyErr String
  today : String
  now : Rat

structure SysState where
  cache : Cache
  calls : List (String × String)

/-- `self.llm.invoke([SystemMessage(...), HumanMessage(...)])`: the call
is recorded (it was issued) whether or not the backend fails. -/
def llmInvoke (env : LlmEnv) (sys user : String) (s : SysState) :
    Except PyErr String × SysState :=
  (env.oracle sys user, { s with calls := s.calls ++ [(sys, user)] })

def singleKey (code today : String) : String := code ++ "_" ++ today ++ "_single"

def multiKey (code today : String) : String := code ++ "_" ++ today ++ "_multi"

/-! ### `LLMService.analyze_stock` (src/llm_service.py, lines 24-66) -/

/-- The safe-hold dict built by `analyze_stock`'s `except Exception`
branch: prices default to the snapshot's current price. -/
def analysisErrorResult (stock_data : StockData) : Rec :=
  { recommendation := .str "保持"
    reason := .str "分析过程中出现错误"
    action := .str "保持"
    predicted_price := stock_data.current_price
    predicted_buy_price := stock_data.current_price
    predicted_sell_price := stock_data.current_price
    confidence := mkRat 1 2 }

/-- `LLMService.analyze_stock`: fresh-cache check, one model call, parse,
store on success; the `try` covers the model call, the parse and the
store, and `except Exception` converts any failure (backend error or a
parse exception) into the safe-hold result without storing it. -/
def LLMService.analyze_stock (env : LlmEnv) (stock_data : StockData)
    (history_data : List HistoryBar) (stock_info : Option StockInfo)
    (s : SysState) : Except PyErr Rec × SysState :=
  let cache_key := singleKey stock_data.code env.today
  match cacheFresh s.cache cache_key env.now with
  | some cached_result => (.ok cached_result, s)
  | none =>
    let prompt := LLMService.build_analysis_prompt stock_data history_data stock_info
    match llmInvoke env analystSystemMessage prompt s with
    | (.ok content, s1) =>
      match LLMService.parse_response content with
      | .ok result =>
        (.ok result, { s1 with cache := cacheStore s1.cache cache_key (result, env.now) })
      | .error _ => (.ok (analysisErrorResult stock_data), s1)
    | (.error _, s1) => (.ok (analysisErrorResult stock_data), s1)

/-! ### `MultiRoleAnalyzer` (src/analysis_framework.py)

The compiled langgraph is a linear chain
fundamental → technical → trader → decision; `graph.invoke` runs the
node functions in that order, each threading the `MessageState`
dict and making one model call. -/

structure MessageState where
  stock_data : StockData
  history_data : List HistoryBar
  stock_info : Option StockInfo
  fundamental_analyst : String
  technical_analysis : String
  trader_analysis : String
  final_recommendation : Option Rec

namespace MultiRoleAnalyzer

def fundamentalPrompt (st : MessageState) : String :=
  "\n作为基本面分析师，请对以下股票进行深入的基本面分析：\n\n股票基本信息：\n- 代码: " ++
  st.stock_data.code ++
  "\n- 名称: " ++ st.stock_data.name ++
  "\n- 行业: " ++ sectorOf st.stock_info ++
  "\n- 总市值: " ++ toString st.stock_data.total_market_value ++
  "万元\n- 流通市值: " ++ toString st.stock_data.circulating_market_value ++
  "万元\n- 市盈率: " ++ toString st.stock_data.pe ++
  "\n- 市净率: " ++ toString st.stock_data.pb ++
  "\n\n请分析：\n1. 公司财务状况和盈利能力\n2. 行业地位和竞争优势" ++
  "\n3. 估值水平是否合理\n4. 长期投资价值\n\n请给出详细的基本面分析报告。\n"

def fundamentalSystemMessage : String :=
  "你是一个专业的股票基本面分析师，擅长财务分析和估值评估。"

def technicalPrompt (st : MessageState) : String :=
  let history_summary := String.intercalate "\n" ((st.history_data.take 15).map fun d =>
    "日期: " ++ d.date ++ ", 开盘: " ++ toString d.openPrice ++
    ", 最高: " ++ toString d.high ++ ", 最低: " ++ toString d.low ++
    ", 收盘: " ++ toString d.close ++ ", 成交量: " ++ toString d.volume ++
    ", 涨跌幅: " ++ toString d.pctChg ++ "%")
  "\n作为技术指标分析师，请对以下股票进行技术分析：\n\n实时数据：\n- 当前价格: " ++
  toString st.stock_data.current_price ++
  "\n- 涨跌幅: " ++ toString st.stock_data.change_percent ++
  "%\n- 开盘价: " ++ toString st.stock_data.openPrice ++
  "\n- 最高价: " ++ toString st.stock_data.high ++
  "\n- 最低价: " ++ toString st.stock_data.low ++
  "\n- 成交量: " ++ toString st.stock_data.volume_hand ++
  "手\n\n历史数据（最近15天）：\n" ++ history_summary ++
  "\n\n请分析：\n1. 价格趋势和支撑阻力位\n2. 成交量变化和资金流向" ++
  "\n3. 技术指标信号（如MACD、RSI、均线等）\n4. 短期交易机会\n\n请给出详细的技术分析报告。\n"

def technicalSystemMessage : String :=
  "你是一个专业的股票技术分析师，擅长技术指标分析和趋势判断。"

def traderPrompt (st : MessageState) : String :=
  "\n作为股市交易员，请基于基本面分析和技术分析，给出具体的交易建议：\n\n基本面分析：\n" ++
  st.fundamental_analyst ++
  "\n\n技术分析：\n" ++ st.technical_analysis ++
  "\n\n请综合考虑：\n1. 风险收益比\n2. 市场情绪和资金面" ++
  "\n3. 交易时机和仓位管理\n4. 止损止盈策略\n\n请给出具体的交易建议。\n"

def traderSystemMessage : String :=
  "你是一个经验丰富的股市交易员，擅长风险管理和交易策略制定。"

def decisionPrompt (st : MessageState) : String :=
  "\n请基于三位专家的分析，给出最终的T+1选股建议：\n\n基本面分析：\n" ++
  st.fundamental_analyst ++
  "\n\n技术分析：\n" ++ st.technical_analysis ++
  "\n\n交易员分析：\n" ++ st.trader_analysis ++
  "\n\n请给出具体的投资建议，包括：\n- 建议（买入/卖出/保持）\n- 推荐原因" ++
  "\n- 动作（买/卖/保持）\n- 预测价格（T+1）\n- 预测买入价格（T+1）" ++
  "\n- 预测卖出价格（T+1）\n- 预测信心（0-1）\n\n请以JSON格式返回结果。\n"

def decisionSystemMessage : String :=
  "你是首席投资官，需要综合各方分析做出最终投资决策。"

/-- `fundamental_analysis_node`: one model call, writes
`state['fundamental_analyst']`. -/
def fundamental_analysis_node (env : LlmEnv) (st : MessageState) (s : SysState) :
    Except PyErr MessageState × SysState :=
  match llmInvoke env fundamentalSystemMessage (fundamentalPrompt st) s with
  | (.ok content, s') => (.ok { st with fundamental_analyst := content }, s')
  | (.error e, s') => (.error e, s')

/-- `technical_analysis_node`: one model call, writes
`state['technical_analysis']`. -/
def technical_analysis_node (env : LlmEnv) (st : MessageState) (s : SysState) :
    Except PyErr MessageState × SysState :=
  match llmInvoke env technicalSystemMessage (technicalPrompt st) s with
  | (.ok content, s') => (.ok { st with technical_analysis := content }, s')
  | (.error e, s') => (.error e, s')

/-- `trader_analysis_node`: one model call, writes
`state['trader_analysis']`. -/
def trader_analysis_node (env : LlmEnv) (st : MessageState) (s : SysState) :
    Except PyErr MessageState × SysState :=
  match llmInvoke env traderSystemMessage (traderPrompt st) s with
  | (.ok content, s') => (.ok { st with trader_analysis := content }, s')
  | (.error e, s') => (.error e, s')

/-- `final_decision_node`: one model call, then `_parse_response` on the
raw output (whose uncaught exceptions propagate out of the node), and
writes `state['final_recommendation']`. -/
def final_decision_node (env : LlmEnv) (st : MessageState) (s : SysState) :
    Except PyErr MessageState × SysState :=
  match llmInvoke env decisionSystemMessage (decisionPrompt st) s with
  | (.ok content, s') =>
    match LLMService.parse_response content with
    | .ok final_result => (.ok { st with final_recommendation := some final_result }, s')
    | .error e => (.error e, s')
  | (.error e, s') => (.error e, s')

/-- The initial `MessageState(...)` built in `analyze` (its
`technical_analysis_node=""` keyword is a typo for `technical_analysis`,
so that field — like `trader_analysis` and `final_recommendation` — is
simply absent until its node writes it; TypedDict construction does not
check keys at runtime). -/
def initialState (stock_data : StockData) (history_data : List HistoryBar)
    (stock_info : Option StockInfo) : MessageState :=
  { stock_data := stock_data
    history_data := history_data
    stock_info := stock_info
    fundamental_analyst := ""
    technical_analysis := ""
    trader_analysis := ""
    final_recommendation := none }

/-- `self.graph.invoke(...)`: the compiled linear chain
fundamental → technical → trader → decision, stopping at the first
raised exception. -/
def graph_invoke (env : LlmEnv) (st : MessageState) (s : SysState) :
    Except PyErr MessageState × SysState :=
  match fundamental_analysis_node env st s with
  | (.error e, s1) => (.error e, s1)
  | (.ok st1, s1) =>
    match technical_analysis_node env st1 s1 with
    | (.error e, s2) => (.error e, s2)
    | (.ok st2, s2) =>
      match trader_analysis_node env st2 s2 with
      | (.error e, s3) => (.error e, s3)
      | (.ok st3, s3) =>
        match final_decision_node env st3 s3 with
        | (.error e, s4) => (.error e, s4)
        | (.ok st4, s4) => (.ok st4, s4)

/-- `MultiRoleAnalyzer.analyze` (src/analysis_framework.py, lines
183-217): fresh-cache check under the `_multi` key; on a miss run the
graph; on success store under the `_multi` key and return; on any
exception from the graph (`except Exception`) fall back to
`LLMService.analyze_stock` on the same inputs.  (`result["final_recommendation"]`
would raise `KeyError` — also caught — if the decision node had not set
it; on a successful run it always has.) -/
def analyze (env : LlmEnv) (stock_data : StockData)
    (history_data : List HistoryBar) (stock_info : Option StockInfo)
    (s : SysState) : Except PyErr Rec × SysState :=
  let cache_key := multiKey stock_data.code env.today
  match cacheFresh s.cache cache_key env.now with
  | some cached_result => (.ok cached_result, s)
  | none =>
    match graph_invoke env (initialState stock_data history_data stock_info) s with
    | (.ok st, s1) =>
      match st.final_recommendation with
      | some final_result =>
        (.ok final_result,
          { s1 with cache := cacheStore s1.cache cache_key (final_result, env.now) })
      | none => LLMService.analyze_stock env stock_data history_data stock_info s1
    | (.error _, s1) => LLMService.analyze_stock env stock_data history_data stock_info s1

end MultiRoleAnalyzer

/-! ### Batch orchestration (`StockAnalysisSystem.analyze_multiple_stocks`,
src/main.py, lines 67-183)

The data collaborators are abstracted behind `Collabs`; each bulk call
the orchestrator makes is recorded as a `CollabCall` event.  The mode
(staged vs single-shot) is chosen once per run, so the per-entity
analysis is abstracted as one `analyzer` function, which may raise; the
shared-cache interaction inside it is the single-invocation semantics
modelled above and is orthogonal to the batch layer. -/

inductive ResultRecord where
  | success (code name analysis_date : String) (current_price change_percent : Rat)
      (recommendation reason action : JVal)
      (predicted_price predicted_buy_price predicted_sell_price confidence : Rat)
  | failure (code name errMsg : String)

def ResultRecord.isFailure : ResultRecord → Bool
  | .failure _ _ _ => true
  | _ => false

def ResultRecord.isProfileNotFound : ResultRecord → Bool
  | .failure _ _ msg => msg = "未找到股票基本信息"
  | _ => false

inductive CollabCall where
  | profileBatch (codes : List String)
  | quoteBatch (full_codes : List String)
  | historyBatch (full_codes : List String)
  | quoteSingle (full_code : String)
  | historySingle (full_code : String)

def CollabCall.isQuoteBatch : CollabCall → Bool
  | .quoteBatch _ => true
  | _ => false

def CollabCall.isHistoryBatch : CollabCall → Bool
  | .historyBatch _ => true
  | _ => false

def CollabCall.isPerEntity : CollabCall → Bool
  | .quoteSingle _ => true
  | .historySingle _ => true
  | _ => false

/-- The quote/history/profile collaborators (`Database`,
`RealTimeStockDataFetcher`), returning the entry lists of the dicts
their bulk calls produce. -/
structure Collabs where
  get_batch_stock_info : List String → List (String × StockInfo)
  get_multiple_stocks_data : List String → List (String × StockData)
  get_batch_stock_history : List String → List (String × List HistoryBar)

/-- Python `dict.get`. -/
def dictGet {α : Type} (m : List (String × α)) (k : String) : Option α :=
  (m.find? (·.1 = k)).map (·.2)

/-- The per-entity closure `analyze_stock(code)` inside
`analyze_multiple_stocks`: it reads only the three pre-fetched dicts,
produces exactly one `ResultRecord`, and its `try/except Exception`
wraps any exception into a failure record (`'name': '未知'`,
`'error': str(e)`). -/
def analyzeTask
    (analyzer : StockData → List HistoryBar → Option StockInfo → Except PyErr Rec)
    (stock_infos : List (String × StockInfo))
    (real_time_data_dict : List (String × StockData))
    (history_data_dict : List (String × List HistoryBar))
    (nowStr : String) (code : String) : ResultRecord :=
  match dictGet stock_infos code with
  | none => .failure code "未知" "未找到股票基本信息"
  | some stock_info =>
    match stock_info.full_code.bind (dictGet real_time_data_dict) with
    | none => .failure code stock_info.name "获取实时数据失败"
    | some real_time_data =>
      let history_data := (stock_info.full_code.bind (dictGet history_data_dict)).getD []
      match analyzer real_time_data history_data (some stock_info) with
      | .ok r =>
        .success code stock_info.name nowStr real_time_data.current_price
          real_time_data.change_percent r.recommendation r.reason r.action
          r.predicted_price r.predicted_buy_price r.predicted_sell_price r.confidence
      | .error e => .failure code "未知" (pyErrString e)

/-- `full_codes = [info['full_code'] for code, info in stock_infos.items()
if info and info.get('full_code')]` (a `None` or empty `full_code` is
falsy and filtered out). -/
def fullCodesOf (stock_infos : List (String × StockInfo)) : List String :=
  stock_infos.filterMap fun p =>
    match p.2.full_code with
    | some fc => if fc = "" then none else some fc
    | none => none

/-- `StockAnalysisSystem.analyze_multiple_stocks`, data part: one bulk
profile lookup, one bulk quote fetch and one bulk history fetch for the
whole batch, then one task per input code over the pre-fetched dicts
(`executor.map` preserves input order and the coordinator drains it in
that order).  The second component is the trace of collaborator calls
issued. -/
def analyze_multiple_stocks (c : Collabs)
    (analyzer : StockData → List HistoryBar → Option StockInfo → Except PyErr Rec)
    (stock_codes : List String) (nowStr : String) :
    List ResultRecord × List CollabCall :=
  let stock_infos := c.get_batch_stock_info stock_codes
  let full_codes := fullCodesOf stock_infos
  let real_time_data_dict := c.get_multiple_stocks_data full_codes
  let history_data_dict := c.get_batch_stock_history full_codes
  (stock_codes.map (analyzeTask analyzer stock_infos real_time_data_dict history_data_dict nowStr),
   [.profileBatch stock_codes, .quoteBatch full_codes, .historyBatch full_codes])

/-! ### Result persistence (`StockAnalysisSystem.save_results` and the
incremental-save loop, src/main.py, lines 156-181 and 205-256)

The output sink is modelled as `Option String` (`none` = the file does
not exist).  `json.dump(..., ensure_ascii=False, indent=2)` of the flat
result dicts is modelled by `dumps`. -/

def hexDigitChar (n : Nat) : Char :=
  Char.ofNat (if n < 10 then 48 + n else 87 + n)

/-- JSON string escaping with `ensure_ascii=False`: only the quote, the
backslash and control characters are escaped; everything else (CJK
included) is written raw. -/
def escapeChar (c : Char) : List Char :=
  if c = quoteChar then [backslashChar, quoteChar]
  else if c = backslashChar then [backslashChar, backslashChar]
  else if c = '\n' then [backslashChar, 'n']
  else if c = '\t' then [backslashChar, 't']
  else if c = '\r' then [backslashChar, 'r']
  else if c.toNat = 8 then [backslashChar, 'b']
  else if c.toNat = 12 then [backslashChar, 'f']
  else if c.toNat < 32 then
    [backslashChar, 'u', '0', '0', hexDigitChar (c.toNat / 16), hexDigitChar (c.toNat % 16)]
  else [c]

def jsonQuote (s : String) : String :=
  String.mk (quoteChar :: s.data.foldr (fun c acc => escapeChar c ++ acc) [quoteChar])

/-- Smallest `k` with `den ∣ 10 ^ k`, for denominators of finite
decimals. -/
def pow10Div (den : Nat) : Option Nat :=
  (List.range 31).find? (fun k => 10 ^ k % den = 0)

/-- Python's `repr` of a float, for values that are exact finite
decimals (all that occur in the persisted records in the concrete
scenario); integers print with a trailing `.0` as floats do. -/
def showPyFloat (q : Rat) : String :=
  let sign := if q.num < 0 then "-" else ""
  let na := q.num.natAbs
  if q.den = 1 then sign ++ toString na ++ ".0"
  else
    match pow10Div q.den with
    | some k =>
      let scaled := na * (10 ^ k / q.den)
      let ip := scaled / 10 ^ k
      let fp := scaled % 10 ^ k
      let fpStr := toString fp
      let pad := String.mk (List.replicate (k - fpStr.length) '0')
      sign ++ toString ip ++ "." ++ pad ++ fpStr
    | none => sign ++ toString na ++ "/" ++ toString q.den

/-- Serialize a JSON value compactly, structurally on fuel so it
evaluates in the kernel (container values never occur in the flat
result records, whose top-level layout `dumps` handles, so the fixed
nesting budget below is never reached). -/
def jdumpF : Nat → JVal → String
  | _, .null => "null"
  | _, .boolean b => if b then "true" else "false"
  | _, .num q => showPyFloat q
  | _, .str s => jsonQuote s
  | 0, _ => ""
  | fuel + 1, .arr xs =>
    "[" ++ String.intercalate ", " (xs.map (jdumpF fuel)) ++ "]"
  | fuel + 1, .obj kvs =>
    String.mk [lbrace] ++
      String.intercalate ", "
        (kvs.map fun kv => jsonQuote kv.1 ++ ": " ++ jdumpF fuel kv.2) ++
      String.mk [rbrace]

def jdump (v : JVal) : String := jdumpF 64 v

/-- The keys of a result dict in insertion order (the order
`json.dump` writes them). -/
def recordFields : ResultRecord → List (String × JVal)
  | .success c n d cp chg rec rsn act pp pbp psp conf =>
    [("code", .str c), ("name", .str n), ("analysis_date", .str d),
     ("current_price", .num cp), ("change_percent", .num chg),
     ("recommendation", rec), ("reason", rsn), ("action", act),
     ("predicted_price", .num pp), ("predicted_buy_price", .num pbp),
     ("predicted_sell_price", .num psp), ("confidence", .num conf)]
  | .failure c n e => [("code", .str c), ("name", .str n), ("error", .str e)]

/-- `json.dump(result, f, ensure_ascii=False, indent=2)` of one flat
result dict. -/
def dumps (r : ResultRecord) : String :=
  String.mk [lbrace] ++ "\n" ++
    String.intercalate ",\n"
      ((recordFields r).map fun kv => "  " ++ jsonQuote kv.1 ++ ": " ++ jdump kv.2) ++
    "\n" ++ String.mk [rbrace]

/-- Python's `str.strip()` on the file content (the whitespace that can
occur there is covered by the JSON whitespace set). -/
def pyStrip (s : String) : String :=
  String.mk ((skipWs (skipWs s.data).reverse).reverse)

/-- `save_results(results, filename, batch_size=n, append=True)` as the
incremental loop invokes it: empty input is a no-op; a missing or blank
file is (re)started with `'[\n'`; a file whose stripped content does not
end in `[` gets a `',\n'` separator first; then the records are appended
comma-separated. -/
def save_results (results : List ResultRecord) (file : Option String) : Option String :=
  match results with
  | [] => file
  | _ =>
    let base : String :=
      match file with
      | none => "[\n"
      | some content =>
        let t := pyStrip content
        if t = "" then "[\n"
        else if t.data.getLast? = some '[' then content
        else content ++ ",\n"
    some (base ++ String.intercalate ",\n" (results.map dumps))

/-- One completion step of the incremental-save loop in
`analyze_multiple_stocks`: append the result to `temp_results` and
flush when `len(temp_results) >= save_batch_size`. -/
def flushStep (batchSize : Nat) :
    (List ResultRecord × Option String) → ResultRecord →
    (List ResultRecord × Option String)
  | (temp, file), r =>
    let temp := temp ++ [r]
    if batchSize ≤ temp.length then ([], save_results temp file)
    else (temp, file)

/-- The whole incremental-save loop: per-completion flushing in
completion order, then the final flush of any remainder.  The sink is
still an open JSON array here. -/
def runFlushes (results : List ResultRecord) (batchSize : Nat)
    (file0 : Option String) : Option String :=
  let (temp, file) := results.foldl (flushStep batchSize) ([], file0)
  if temp.isEmpty then file else save_results temp file

/-- The closing step after the loop: `f.write('\n]')` if the file
exists. -/
def closeFile : Option String → Option String
  | some content => some (content ++ "\n]")
  | none => none

/-- Incremental persistence end to end: flush loop plus closing
bracket. -/
def runIncremental (results : List ResultRecord) (batchSize : Nat)
    (file0 : Option String) : Option String :=
  closeFile (runFlushes results batchSize file0)

/-- The per-entity dispatch in `analyze_single_stock` and in the batch
task (src/main.py, lines 43-50 and 124-131): the mode is fixed once for
the system (`use_multi_role`), selecting `MultiRoleAnalyzer.analyze` or
`LLMService.analyze_stock`. -/
def dispatchAnalyze (use_multi_role : Bool) (env : LlmEnv) (stock_data : StockData)
    (history_data : List HistoryBar) (stock_info : Option StockInfo)
    (s : SysState) : Except PyErr Rec × SysState :=
  if use_multi_role then MultiRoleAnalyzer.analyze env stock_data history_data stock_info s
  else LLMService.analyze_stock env stock_data history_data stock_info s

/-- The cache key the selected mode uses. -/
def modeKey (use_multi_role : Bool) (code today : String) : String :=
  if use_multi_role then multiKey code today else singleKey code today

/-! ## Concrete fixtures used by witnesses and counterexamples -/

/-- A concrete snapshot. -/
def sd0 : StockData :=
  { code := "600000", name := "浦发银行", current_price := mkRat 25 2
    change_percent := mkRat 1 2, openPrice := mkRat 12 1, high := mkRat 13 1
    low := mkRat 12 1, volume_hand := 1000, pe := mkRat 6 1, pb := mkRat 1 1
    total_market_value := mkRat 3000 1, circulating_market_value := mkRat 2900 1 }

/-- The `Rec` that `_parse_response` returns on the raw text `"\x7b\x7d"`
(an empty JSON object): every text field defaults, the prices coerce
from the integer default `0`, and the confidence from the out-of-range
default `-0.5`. -/
def recEmptyObj : Rec :=
  { recommendation := .str "保持"
    reason := .str "分析完成"
    action := .str "保持"
    predicted_price := mkRat 0 1
    predicted_buy_price := mkRat 0 1
    predicted_sell_price := mkRat 0 1
    confidence := mkRat (-1) 2 }

/-- An environment whose model backend always fails. -/
def envFail : LlmEnv :=
  { oracle := fun _ _ => .error .backendError, today := "2026-10-12", now := mkRat 0 1 }

/-- An environment whose model backend always answers with an empty
JSON object. -/
def envOk : LlmEnv :=
  { oracle := fun _ _ => .ok (String.mk [lbrace, rbrace]), today := "2026-10-12", now := mkRat 0 1 }

/-- `envOk` one second later the same day. -/
def envOk2 : LlmEnv :=
  { oracle := fun _ _ => .ok (String.mk [lbrace, rbrace]), today := "2026-10-12", now := mkRat 1 1 }

/-- An always-failing backend a day later the same calendar date
string (timestamp exactly at the expiry bound). -/
def envLate : LlmEnv :=
  { oracle := fun _ _ => .error .backendError, today := "2026-10-12", now := mkRat 86400 1 }

/-- The empty starting state: empty cache, no calls issued. -/
def s0 : SysState := { cache := [], calls := [] }

/-- A concrete profile for the batch fixtures. -/
def infoA : StockInfo :=
  { code := "600000", name := "浦发银行", sector := "银行", full_code := some "sh600000" }

/-- Collaborators for the batch witness: the profile lookup knows only
`600000`, quotes exist for its full code, history is empty. -/
def collabs0 : Collabs :=
  { get_batch_stock_info := fun _ => [("600000", infoA)]
    get_multiple_stocks_data := fun _ => [("sh600000", sd0)]
    get_batch_stock_history := fun _ => [] }

/-- An analyzer fixture that always succeeds with `recEmptyObj`. -/
def analyzerOk : StockData → List HistoryBar → Option StockInfo → Except PyErr Rec :=
  fun _ _ _ => .ok recEmptyObj

/-- Concrete result records for the incremental-write scenario. -/
def sample1 : ResultRecord :=
  .success "600000" "浦发银行" "2026-10-12 09:30:00" (mkRat 25 2) (mkRat 1 2)
    (.str "买入") (.str "走势强") (.str "买") (mkRat 13 1) (mkRat 25 2) (mkRat 27 2) (mkRat 4 5)

def sample2 : ResultRecord := .failure "000001" "未知" "未找到股票基本信息"

def sample3 : ResultRecord :=
  .success "000002" "万科A" "2026-10-12 09:31:00" (mkRat 8 1) (mkRat (-1) 1)
    (.str "保持") (.str "观望") (.str "保持") (mkRat 8 1) (mkRat 8 1) (mkRat 8 1) (mkRat 1 2)

/-! ## Helper lemmas -/

theorem cacheGet_store_self (c : Cache) (k : String) (v : Rec × Rat) :
    cacheGet (cacheStore c k v) k = some v := by
  simp [cacheGet, cacheStore, List.find?_cons]

theorem cacheGet_store_ne (c : Cache) (k k' : String) (v : Rec × Rat)
    (h : k' ≠ k) : cacheGet (cacheStore c k v) k' = cacheGet c k' := by
  simp only [cacheGet, cacheStore, List.find?_cons]
  have : decide (k = k') = false := by
    simp [decide_eq_false_iff_not]
    exact fun he => h he.symm
  rw [this]

theorem cache_expiry_pos : (0 : Rat) < CACHE_EXPIRY := by
  simp only [CACHE_EXPIRY, Rat.mkRat_one]
  norm_num

/-- Both suffix spellings of the cache key differ, so the staged and
single-shot modes never share an entry. -/
theorem multiKey_ne_singleKey (code today : String) :
    multiKey code today ≠ singleKey code today := by
  intro h
  have hl := congrArg String.length h
  simp only [multiKey, singleKey, String.length_append] at hl
  have h1 : "_multi".length = 6 := rfl
  have h2 : "_single".length = 7 := rfl
  omega

/-! Helper lemmas about the pipeline stages: every node leaves the cache
untouched and appends exactly its own model call. -/

theorem fundamental_node_state (env : LlmEnv) (st : MessageState) (s : SysState) :
    (MultiRoleAnalyzer.fundamental_analysis_node env st s).2 =
      { s with calls := s.calls ++
          [(MultiRoleAnalyzer.fundamentalSystemMessage, MultiRoleAnalyzer.fundamentalPrompt st)] } := by
  unfold MultiRoleAnalyzer.fundamental_analysis_node llmInvoke
  cases h : env.oracle MultiRoleAnalyzer.fundamentalSystemMessage
    (MultiRoleAnalyzer.fundamentalPrompt st) <;> simp only [h]

theorem technical_node_state (env : LlmEnv) (st : MessageState) (s : SysState) :
    (MultiRoleAnalyzer.technical_analysis_node env st s).2 =
      { s with calls := s.calls ++
          [(MultiRoleAnalyzer.technicalSystemMessage, MultiRoleAnalyzer.technicalPrompt st)] } := by
  unfold MultiRoleAnalyzer.technical_analysis_node llmInvoke
  cases h : env.oracle MultiRoleAnalyzer.technicalSystemMessage
    (MultiRoleAnalyzer.technicalPrompt st) <;> simp only [h]

theorem trader_node_state (env : LlmEnv) (st : MessageState) (s : SysState) :
    (MultiRoleAnalyzer.trader_analysis_node env st s).2 =
      { s with calls := s.calls ++
          [(MultiRoleAnalyzer.traderSystemMessage, MultiRoleAnalyzer.traderPrompt st)] } := by
  unfold MultiRoleAnalyzer.trader_analysis_node llmInvoke
  cases h : env.oracle MultiRoleAnalyzer.traderSystemMessage
    (MultiRoleAnalyzer.traderPrompt st) <;> simp only [h]

theorem decision_node_state (env : LlmEnv) (st : MessageState) (s : SysState) :
    (MultiRoleAnalyzer.final_decision_node env st s).2 =
      { s with calls := s.calls ++
          [(MultiRoleAnalyzer.decisionSystemMessage, MultiRoleAnalyzer.decisionPrompt st)] } := by
  unfold MultiRoleAnalyzer.final_decision_node llmInvoke
  cases h : env.oracle MultiRoleAnalyzer.decisionSystemMessage
    (MultiRoleAnalyzer.decisionPrompt st) <;> simp only [h]
  case ok content =>
    cases hp : LLMService.parse_response content <;> simp only [hp]

/-- Running the graph never touches the cache and strictly extends the
call log (the first stage's call is always issued). -/
theorem graph_invoke_state (env : LlmEnv) (st : MessageState) (s : SysState) :
    (MultiRoleAnalyzer.graph_invoke env st s).2.cache = s.cache ∧
    s.calls.length < (MultiRoleAnalyzer.graph_invoke env st s).2.calls.length := by
  have h1 := fundamental_node_state env st s
  cases hf : MultiRoleAnalyzer.fundamental_analysis_node env st s with
  | mk r1 s1 =>
  rw [hf] at h1
  replace h1 : s1 = _ := h1
  subst h1
  cases r1 with
  | error e =>
    simp only [MultiRoleAnalyzer.graph_invoke, hf]
    simp
  | ok st1 =>
    set sA : SysState := { s with calls := s.calls ++
      [(MultiRoleAnalyzer.fundamentalSystemMessage, MultiRoleAnalyzer.fundamentalPrompt st)] }
      with hsA
    have h2 := technical_node_state env st1 sA
    cases ht : MultiRoleAnalyzer.technical_analysis_node env st1 sA with
    | mk r2 s2 =>
    rw [ht] at h2
    replace h2 : s2 = _ := h2
    subst h2
    cases r2 with
    | error e =>
      simp only [MultiRoleAnalyzer.graph_invoke, hf, ht]
      simp [hsA]
    | ok st2 =>
      set sB : SysState := { sA with calls := sA.calls ++
        [(MultiRoleAnalyzer.technicalSystemMessage, MultiRoleAnalyzer.technicalPrompt st1)] }
        with hsB
      have h3 := trader_node_state env st2 sB
      cases htr : MultiRoleAnalyzer.trader_analysis_node env st2 sB with
      | mk r3 s3 =>
      rw [htr] at h3
      replace h3 : s3 = _ := h3
      subst h3
      cases r3 with
      | error e =>
        simp only [MultiRoleAnalyzer.graph_invoke, hf, ht, htr]
        simp [hsA, hsB]
      | ok st3 =>
        set sC : SysState := { sB with calls := sB.calls ++
          [(MultiRoleAnalyzer.traderSystemMessage, MultiRoleAnalyzer.traderPrompt st2)] }
          with hsC
        have h4 := decision_node_state env st3 sC
        cases hd : MultiRoleAnalyzer.final_decision_node env st3 sC with
        | mk r4 s4 =>
        rw [hd] at h4
        replace h4 : s4 = _ := h4
        subst h4
        cases r4 with
        | error e =>
          simp only [MultiRoleAnalyzer.graph_invoke, hf, ht, htr, hd]
          simp [hsA, hsB, hsC]
        | ok st4 =>
          simp only [MultiRoleAnalyzer.graph_invoke, hf, ht, htr, hd]
          simp [hsA, hsB, hsC]

/-- The single-shot analyzer's returned value depends on the state only
through the cache. -/
theorem analyze_stock_fst_congr (env : LlmEnv) (sd : StockData)
    (hd : List HistoryBar) (si : Option StockInfo) (s t : SysState)
    (h : s.cache = t.cache) :
    (LLMService.analyze_stock env sd hd si s).1 =
      (LLMService.analyze_stock env sd hd si t).1 := by
  unfold LLMService.analyze_stock llmInvoke
  rw [h]
  cases hc : cacheFresh t.cache (singleKey sd.code env.today) env.now <;> simp only [hc]
  cases ho : env.oracle analystSystemMessage (LLMService.build_analysis_prompt sd hd si) <;>
    simp only [ho]
  case none.ok content =>
    cases hp : LLMService.parse_response content <;> simp only [hp]

/-- The single-shot analyzer never alters a cache entry other than its
own `_single` key. -/
theorem analyze_stock_cache_other (env : LlmEnv) (sd : StockData)
    (hd : List HistoryBar) (si : Option StockInfo) (s : SysState) (k : String)
    (h : k ≠ singleKey sd.code env.today) :
    cacheGet (LLMService.analyze_stock env sd hd si s).2.cache k = cacheGet s.cache k := by
  unfold LLMService.analyze_stock llmInvoke
  cases hc : cacheFresh s.cache (singleKey sd.code env.today) env.now <;> simp only [hc]
  cases ho : env.oracle analystSystemMessage (LLMService.build_analysis_prompt sd hd si) <;>
    simp only [ho]
  case none.ok content =>
    cases hp : LLMService.parse_response content <;> simp only [hp]
    exact cacheGet_store_ne _ _ _ _ h

/-- The single-shot analyzer never shrinks the call log. -/
theorem analyze_stock_calls_le (env : LlmEnv) (sd : StockData)
    (hd : List HistoryBar) (si : Option StockInfo) (s : SysState) :
    s.calls.length ≤ (LLMService.analyze_stock env sd hd si s).2.calls.length := by
  unfold LLMService.analyze_stock llmInvoke
  cases hc : cacheFresh s.cache (singleKey sd.code env.today) env.now <;> simp only [hc]
  case some => simp
  case none =>
    cases ho : env.oracle analystSystemMessage (LLMService.build_analysis_prompt sd hd si) <;>
      simp only [ho]
    case error => simp
    case ok content =>
      cases hp : LLMService.parse_response content <;> simp only [hp] <;> simp

/-- On a cache miss the single-shot analyzer issues exactly one model
call. -/
theorem analyze_stock_calls_miss (env : LlmEnv) (sd : StockData)
    (hd : List HistoryBar) (si : Option StockInfo) (s : SysState)
    (h : cacheFresh s.cache (singleKey sd.code env.today) env.now = none) :
    (LLMService.analyze_stock env sd hd si s).2.calls.length = s.calls.length + 1 := by
  unfold LLMService.analyze_stock llmInvoke
  cases hc : cacheFresh s.cache (singleKey sd.code env.today) env.now <;> simp only [hc]
  case some => simp [h] at hc
  case none =>
    cases ho : env.oracle analystSystemMessage (LLMService.build_analysis_prompt sd hd si) <;>
      simp only [ho]
    case error => simp
    case ok content =>
      cases hp : LLMService.parse_response content <;> simp only [hp] <;> simp

/-- An entry cached at the lookup instant itself is always fresh
(`now - now = 0 < CACHE_EXPIRY`). -/
theorem cacheFresh_of_get_now (c : Cache) (k : String) (now : Rat) (r : Rec)
    (h : cacheGet c k = some (r, now)) : cacheFresh c k now = some r := by
  simp only [cacheFresh, h]
  rw [if_pos]
  rw [sub_self]
  exact cache_expiry_pos

/-- Contrapositive form: after a miss at instant `now`, no entry with
timestamp `now` can have been present. -/
theorem get_now_ne_of_fresh_none (c : Cache) (k : String) (now : Rat) (r : Rec)
    (h : cacheFresh c k now = none) : cacheGet c k ≠ some (r, now) := by
  intro hg
  rw [cacheFresh_of_get_now c k now r hg] at h
  cases h

/-- A key with no entry is never a fresh hit. -/
theorem cacheFresh_none_of_get_none (c : Cache) (k : String) (now : Rat)
    (h : cacheGet c k = none) : cacheFresh c k now = none := by
  unfold cacheFresh
  rw [h]

/-- On a staged-cache miss, `MultiRoleAnalyzer.analyze` always issues at
least one model call (the first stage's), on the success path and on
both fallback paths. -/
theorem multi_analyze_calls_miss (env : LlmEnv) (sd : StockData)
    (hd : List HistoryBar) (si : Option StockInfo) (s : SysState)
    (h : cacheFresh s.cache (multiKey sd.code env.today) env.now = none) :
    s.calls.length < (MultiRoleAnalyzer.analyze env sd hd si s).2.calls.length := by
  unfold MultiRoleAnalyzer.analyze
  simp only [h]
  have hgs := graph_invoke_state env (MultiRoleAnalyzer.initialState sd hd si) s
  cases hg : MultiRoleAnalyzer.graph_invoke env (MultiRoleAnalyzer.initialState sd hd si) s with
  | mk rg sg =>
  rw [hg] at hgs
  cases rg with
  | error e =>
    exact lt_of_lt_of_le hgs.2 (analyze_stock_calls_le env sd hd si sg)
  | ok st =>
    cases hr : st.final_recommendation with
    | some r =>
      try simp only [hr]
      exact hgs.2
    | none =>
      try simp only [hr]
      exact lt_of_lt_of_le hgs.2 (analyze_stock_calls_le env sd hd si sg)

/-! ## Claim theorems -/

/-- Claim C3 (code-bug evidence): the spec requires `_parse_response`
never to raise, but its `except` clause names only `JSONDecodeError` and
`ValueError`; coercing a decoded JSON `null` (Python `None`) with
`float(...)` raises `TypeError`, which propagates to the caller.  The
failing input decodes fine yet makes the function raise. -/
theorem parse_response_raises_typeError :
    LLMService.parse_response "\x7b\"预测信心\": null\x7d" = .error .typeError ∧
    caughtByParse .typeError = false :=
  ⟨rfl, rfl⟩

/-- Claim C4 counterexample: on `'\x7b"预测价格": "abc"\x7d'` a JSON
object decodes successfully and has no confidence key, yet the returned
confidence is the no-JSON default `0.5`, not `-0.5`: the `float("abc")`
coercion raises `ValueError`, which the `except` clause converts to the
full default before the confidence default is ever used. -/
theorem parse_response_confidence_counterexample :
    (loads "\x7b\"预测价格\": \"abc\"\x7d" = .ok (.obj [("预测价格", .str "abc")]) ∧
      objLookup [("预测价格", JVal.str "abc")] "预测信心" = none) ∧
    LLMService.parse_response "\x7b\"预测价格\": \"abc\"\x7d" = .ok defaultRecommendation ∧
    defaultRecommendation.confidence = mkRat 1 2 ∧
    ¬ (mkRat 1 2 : Rat) = mkRat (-1) 2 := by
  refine ⟨⟨rfl, rfl⟩, rfl, rfl, ?_⟩
  decide

/-- Claim C4, amended: when no brace-delimited JSON object is found, or
decoding it fails, the parser returns the default Recommendation
(action hold, reason 分析完成, confidence 0.5, prices 0); and when a JSON
object decodes successfully, all three price coercions succeed, and the
object has no 预测信心 key, the returned confidence is exactly -0.5. -/
theorem parse_response_default_and_confidence (s m : String)
    (kvs : List (String × JVal)) (p1 p2 p3 : Rat) :
    (jsonMatch s = none → LLMService.parse_response s = .ok defaultRecommendation) ∧
    (jsonMatch s = some m → loads m = .error .jsonDecodeError →
      LLMService.parse_response s = .ok defaultRecommendation) ∧
    (jsonMatch s = some m → loads m = .ok (.obj kvs) →
      pyFloat (objGet2 kvs "预测价格" "预测价格_T+1") = .ok p1 →
      pyFloat (objGet2 kvs "预测买入价格" "预测买入价格_T+1") = .ok p2 →
      pyFloat (objGet2 kvs "预测卖出价格" "预测卖出价格_T+1") = .ok p3 →
      objLookup kvs "预测信心" = none →
      ∃ r, LLMService.parse_response s = .ok r ∧ r.confidence = mkRat (-1) 2) := by
  refine ⟨?_, ?_, ?_⟩
  · intro h
    simp [LLMService.parse_response, h]
  · intro h hd
    simp [LLMService.parse_response, h, hd, caughtByParse]
  · intro h hl h1 h2 h3 hconf
    have hcf2 : pyFloat ((objLookup kvs "预测信心").getD (.num (mkRat (-1) 2))) =
        .ok (mkRat (-1) 2) := by
      rw [hconf]
      rfl
    simp only [LLMService.parse_response, h, hl, h1, h2, h3, hcf2]
    exact ⟨_, rfl, rfl⟩

/-- Claim C4 witness: the three branches exercised at concrete inputs. -/
theorem parse_response_default_and_confidence_witness :
    LLMService.parse_response "no json" = .ok defaultRecommendation ∧
    LLMService.parse_response "\x7b bad \x7d" = .ok defaultRecommendation ∧
    ∃ r, LLMService.parse_response "\x7b\"建议\":\"买入\"\x7d" = .ok r ∧
      r.confidence = mkRat (-1) 2 :=
  ⟨(parse_response_default_and_confidence "no json" "" [] 0 0 0).1 rfl,
   (parse_response_default_and_confidence "\x7b bad \x7d" "\x7b bad \x7d" [] 0 0 0).2.1 rfl rfl,
   (parse_response_default_and_confidence "\x7b\"建议\":\"买入\"\x7d" "\x7b\"建议\":\"买入\"\x7d"
      [("建议", .str "买入")] (mkRat 0 1) (mkRat 0 1) (mkRat 0 1)).2.2 rfl rfl rfl rfl rfl rfl⟩

/-- Claim C5 counterexample: on
`'prefix \x7b"建议":"买入","预测信心":0.8\x7d suffix'` the returned
dict's `action` field is the default `保持` (hold), not `买入` (buy) as
the claim states — the JSON key `建议` feeds the `recommendation` field,
and no `动作` key is present to set `action`. -/
theorem parse_response_action_counterexample :
    ∃ r, LLMService.parse_response
        "prefix \x7b\"建议\":\"买入\",\"预测信心\":0.8\x7d suffix" = .ok r ∧
      r.action = .str "保持" ∧ ¬ ("保持" : String) = "买入" := by
  refine ⟨_, rfl, rfl, ?_⟩
  decide

/-- Claim C5, amended: `parse("no json here")` and `parse("")` both
return the designated default Recommendation without raising, and on
`'prefix \x7b"建议":"买入","预测信心":0.8\x7d suffix'` the returned
dict has recommendation `买入`, confidence `0.8`, and its `action`
field keeps the default `保持`. -/
theorem parse_response_examples :
    LLMService.parse_response "no json here" = .ok defaultRecommendation ∧
    LLMService.parse_response "" = .ok defaultRecommendation ∧
    ∃ r, LLMService.parse_response
        "prefix \x7b\"建议\":\"买入\",\"预测信心\":0.8\x7d suffix" = .ok r ∧
      r.recommendation = .str "买入" ∧ r.confidence = mkRat 4 5 ∧ r.action = .str "保持" :=
  ⟨rfl, rfl, _, rfl, rfl, rfl, rfl⟩

/-- Claim C7: `LLMService.analyze_stock` never propagates an exception
to its caller, and on a cache miss with a failing model backend it
returns the safe-hold dict whose three predicted prices are the
snapshot's current price (not zero), whose action and recommendation
are `保持`, and whose confidence is 0.5. -/
theorem analyze_stock_never_throws_safe_hold (env : LlmEnv) (sd : StockData)
    (hd : List HistoryBar) (si : Option StockInfo) (s : SysState) :
    (∃ r s', LLMService.analyze_stock env sd hd si s = (.ok r, s')) ∧
    (∀ e, cacheFresh s.cache (singleKey sd.code env.today) env.now = none →
      env.oracle analystSystemMessage (LLMService.build_analysis_prompt sd hd si) = .error e →
      LLMService.analyze_stock env sd hd si s =
        (.ok (analysisErrorResult sd),
          { s with calls := s.calls ++
              [(analystSystemMessage, LLMService.build_analysis_prompt sd hd si)] })) ∧
    (analysisErrorResult sd).predicted_price = sd.current_price ∧
    (analysisErrorResult sd).predicted_buy_price = sd.current_price ∧
    (analysisErrorResult sd).predicted_sell_price = sd.current_price ∧
    (analysisErrorResult sd).action = .str "保持" ∧
    (analysisErrorResult sd).recommendation = .str "保持" ∧
    (analysisErrorResult sd).confidence = mkRat 1 2 := by
  refine ⟨?_, ?_, rfl, rfl, rfl, rfl, rfl, rfl⟩
  · unfold LLMService.analyze_stock llmInvoke
    cases hc : cacheFresh s.cache (singleKey sd.code env.today) env.now <;> simp only [hc]
    case some r => exact ⟨r, s, rfl⟩
    case none =>
      cases ho : env.oracle analystSystemMessage (LLMService.build_analysis_prompt sd hd si) <;>
        simp only [ho]
      case error => exact ⟨_, _, rfl⟩
      case ok content =>
        cases hp : LLMService.parse_response content <;> simp only [hp]
        case error => exact ⟨_, _, rfl⟩
        case ok => exact ⟨_, _, rfl⟩
  · intro e hc ho
    unfold LLMService.analyze_stock llmInvoke
    cases hc2 : cacheFresh s.cache (singleKey sd.code env.today) env.now <;> simp only [hc2]
    case some => rw [hc] at hc2; exact Option.noConfusion hc2
    case none => simp only [ho]

/-- Claim C7 witness: a concrete run against an always-failing backend
starting from the empty cache. -/
theorem analyze_stock_never_throws_safe_hold_witness :
    LLMService.analyze_stock envFail sd0 [] none s0 =
      (.ok (analysisErrorResult sd0),
        { s0 with calls := s0.calls ++
            [(analystSystemMessage, LLMService.build_analysis_prompt sd0 [] none)] }) :=
  (analyze_stock_never_throws_safe_hold envFail sd0 [] none s0).2.1 .backendError rfl rfl

/-- Claim C1: on a staged-cache miss, if the four-stage graph raises at
any stage, `MultiRoleAnalyzer.analyze` returns exactly what
`LLMService.analyze_stock` produces on the same snapshot/history/profile
inputs against the same cache (the stages never touch the cache), never
a partial staged result; and on staged success the parsed Recommendation
is stored in the cache (under the `_multi` key, at the call's instant)
in the state the call returns. -/
theorem multi_role_fallback_and_store (env : LlmEnv) (sd : StockData)
    (hd : List HistoryBar) (si : Option StockInfo) (s : SysState) :
    (∀ e s₁, cacheFresh s.cache (multiKey sd.code env.today) env.now = none →
      MultiRoleAnalyzer.graph_invoke env (MultiRoleAnalyzer.initialState sd hd si) s =
        (.error e, s₁) →
      MultiRoleAnalyzer.analyze env sd hd si s = LLMService.analyze_stock env sd hd si s₁ ∧
      s₁.cache = s.cache ∧
      (MultiRoleAnalyzer.analyze env sd hd si s).1 =
        (LLMService.analyze_stock env sd hd si s).1) ∧
    (∀ st sG r, cacheFresh s.cache (multiKey sd.code env.today) env.now = none →
      MultiRoleAnalyzer.graph_invoke env (MultiRoleAnalyzer.initialState sd hd si) s =
        (.ok st, sG) →
      st.final_recommendation = some r →
      MultiRoleAnalyzer.analyze env sd hd si s =
        (.ok r,
          { sG with cache := cacheStore sG.cache (multiKey sd.code env.today) (r, env.now) })) := by
  constructor
  · intro e s₁ hcf hg
    have hfb : MultiRoleAnalyzer.analyze env sd hd si s =
        LLMService.analyze_stock env sd hd si s₁ := by
      unfold MultiRoleAnalyzer.analyze
      simp only [hcf, hg]
    have hcache : s₁.cache = s.cache := by
      have hh := (graph_invoke_state env (MultiRoleAnalyzer.initialState sd hd si) s).1
      rw [hg] at hh
      exact hh
    refine ⟨hfb, hcache, ?_⟩
    rw [hfb]
    exact analyze_stock_fst_congr env sd hd si s₁ s hcache
  · intro st sG r hcf hg hr
    unfold MultiRoleAnalyzer.analyze
    simp only [hcf, hg, hr]

/-- Claim C1 witness: a backend that fails in stage one triggers the
fallback and yields the single-shot result; a backend that answers
`\x7b\x7d` everywhere completes the staged run and caches the parsed
result. -/
theorem multi_role_fallback_and_store_witness :
    ((MultiRoleAnalyzer.analyze envFail sd0 [] none s0).1 =
      (LLMService.analyze_stock envFail sd0 [] none s0).1) ∧
    (MultiRoleAnalyzer.analyze envOk sd0 [] none s0).1 = .ok recEmptyObj ∧
    cacheGet (MultiRoleAnalyzer.analyze envOk sd0 [] none s0).2.cache
      (multiKey sd0.code envOk.today) = some (recEmptyObj, envOk.now) := by
  refine ⟨?_, ?_, ?_⟩
  · exact ((multi_role_fallback_and_store envFail sd0 [] none s0).1 _ _ rfl rfl).2.2
  · have h := (multi_role_fallback_and_store envOk sd0 [] none s0).2 _ _ recEmptyObj rfl rfl rfl
    rw [h]
  · have h := (multi_role_fallback_and_store envOk sd0 [] none s0).2 _ _ recEmptyObj rfl rfl rfl
    rw [h]
    exact cacheGet_store_self _ _ _

/-- Claim C10: when the staged pipeline falls back after a stage
failure, the staged cache key stays unset (the fallback stores at most
under the `_single` key), so a second staged call the same day misses
the cache and issues fresh model calls instead of returning the
fallback result from cache. -/
theorem staged_fallback_leaves_staged_key_unset (env env₂ : LlmEnv) (sd : StockData)
    (hd : List HistoryBar) (si : Option StockInfo) (s : SysState) (e : PyErr) (s₁ : SysState)
    (hnone : cacheGet s.cache (multiKey sd.code env.today) = none)
    (hg : MultiRoleAnalyzer.graph_invoke env (MultiRoleAnalyzer.initialState sd hd si) s =
      (.error e, s₁))
    (htoday : env₂.today = env.today) :
    cacheGet (MultiRoleAnalyzer.analyze env sd hd si s).2.cache
      (multiKey sd.code env.today) = none ∧
    (∀ k, k ≠ singleKey sd.code env.today →
      cacheGet (MultiRoleAnalyzer.analyze env sd hd si s).2.cache k = cacheGet s.cache k) ∧
    cacheFresh (MultiRoleAnalyzer.analyze env sd hd si s).2.cache
      (multiKey sd.code env₂.today) env₂.now = none ∧
    (MultiRoleAnalyzer.analyze env sd hd si s).2.calls.length <
      (MultiRoleAnalyzer.analyze env₂ sd hd si
        (MultiRoleAnalyzer.analyze env sd hd si s).2).2.calls.length := by
  have hcf : cacheFresh s.cache (multiKey sd.code env.today) env.now = none :=
    cacheFresh_none_of_get_none _ _ _ hnone
  have hfb : MultiRoleAnalyzer.analyze env sd hd si s =
      LLMService.analyze_stock env sd hd si s₁ := by
    unfold MultiRoleAnalyzer.analyze
    simp only [hcf, hg]
  have hcache : s₁.cache = s.cache := by
    have hh := (graph_invoke_state env (MultiRoleAnalyzer.initialState sd hd si) s).1
    rw [hg] at hh
    exact hh
  have hother : ∀ k, k ≠ singleKey sd.code env.today →
      cacheGet (MultiRoleAnalyzer.analyze env sd hd si s).2.cache k = cacheGet s.cache k := by
    intro k hk
    rw [hfb, analyze_stock_cache_other env sd hd si s₁ k hk, hcache]
  have hmulti : cacheGet (MultiRoleAnalyzer.analyze env sd hd si s).2.cache
      (multiKey sd.code env.today) = none := by
    rw [hother _ (multiKey_ne_singleKey sd.code env.today), hnone]
  refine ⟨hmulti, hother, ?_, ?_⟩
  · rw [htoday]
    exact cacheFresh_none_of_get_none _ _ _ hmulti
  · apply multi_analyze_calls_miss
    rw [htoday]
    exact cacheFresh_none_of_get_none _ _ _ hmulti

/-- If after a single-shot call the cache holds an entry under the
`_single` key stamped with this very call's instant, then the entry is
what the call returned (it was either a fresh hit stored at that
instant or stored by this call; a failed call stores nothing and a
stale pre-existing entry cannot carry the current instant). -/
theorem analyze_stock_stored_ok (env : LlmEnv) (sd : StockData)
    (hd : List HistoryBar) (si : Option StockInfo) (s₀ : SysState) (r₁ : Rec)
    (hget : cacheGet (LLMService.analyze_stock env sd hd si s₀).2.cache
      (singleKey sd.code env.today) = some (r₁, env.now)) :
    (LLMService.analyze_stock env sd hd si s₀).1 = .ok r₁ := by
  unfold LLMService.analyze_stock llmInvoke at hget ⊢
  cases hc : cacheFresh s₀.cache (singleKey sd.code env.today) env.now <;>
    simp only [hc] at hget ⊢
  case some r' =>
    have hf := cacheFresh_of_get_now _ _ _ _ hget
    rw [hc] at hf
    injection hf with hf
    rw [hf]
  case none =>
    cases ho : env.oracle analystSystemMessage (LLMService.build_analysis_prompt sd hd si) <;>
      simp only [ho] at hget ⊢
    case error e =>
      exact absurd hget (get_now_ne_of_fresh_none _ _ _ _ hc)
    case ok content =>
      cases hp : LLMService.parse_response content <;> simp only [hp] at hget ⊢
      case error e =>
        exact absurd hget (get_now_ne_of_fresh_none _ _ _ _ hc)
      case ok result =>
        rw [cacheGet_store_self] at hget
        injection hget with hget
        injection hget with hget _
        rw [hget]

/-- The staged analogue of `analyze_stock_stored_ok` for the `_multi`
key: the fallback paths only ever touch the `_single` key, so an entry
under the `_multi` key stamped with this call's instant pins down the
staged result. -/
theorem multi_analyze_stored_ok (env : LlmEnv) (sd : StockData)
    (hd : List HistoryBar) (si : Option StockInfo) (s₀ : SysState) (r₁ : Rec)
    (hget : cacheGet (MultiRoleAnalyzer.analyze env sd hd si s₀).2.cache
      (multiKey sd.code env.today) = some (r₁, env.now)) :
    (MultiRoleAnalyzer.analyze env sd hd si s₀).1 = .ok r₁ := by
  unfold MultiRoleAnalyzer.analyze at hget ⊢
  cases hc : cacheFresh s₀.cache (multiKey sd.code env.today) env.now <;>
    simp only [hc] at hget ⊢
  case some r' =>
    have hf := cacheFresh_of_get_now _ _ _ _ hget
    rw [hc] at hf
    injection hf with hf
    rw [hf]
  case none =>
    have hgs := graph_invoke_state env (MultiRoleAnalyzer.initialState sd hd si) s₀
    cases hg : MultiRoleAnalyzer.graph_invoke env (MultiRoleAnalyzer.initialState sd hd si) s₀ with
    | mk rg sG =>
    rw [hg] at hgs
    simp only [hg] at hget ⊢
    cases rg with
    | error e =>
      rw [analyze_stock_cache_other env sd hd si sG _
        (multiKey_ne_singleKey sd.code env.today), hgs.1] at hget
      exact absurd hget (get_now_ne_of_fresh_none _ _ _ _ hc)
    | ok st =>
      cases hr : st.final_recommendation <;> simp only [hr] at hget ⊢
      case none =>
        rw [analyze_stock_cache_other env sd hd si sG _
          (multiKey_ne_singleKey sd.code env.today), hgs.1] at hget
        exact absurd hget (get_now_ne_of_fresh_none _ _ _ _ hc)
      case some r' =>
        rw [cacheGet_store_self] at hget
        injection hget with hget
        injection hget with hget _
        rw [hget]

/-- Claim C2: (a) after a first call whose result was cached (stamped
with that call's instant), a second call in the same mode on the same
calendar day less than `CACHE_EXPIRY` seconds later returns exactly the
first call's Recommendation with the state unchanged — in particular
with zero additional model calls; (b) a call leaves the call log
unchanged exactly when the lookup is a fresh hit, i.e. the lookup
treats an entry as absent exactly when none exists or
`now - timestamp ≥ CACHE_EXPIRY`; (c) an expired entry is left in place
by a failed re-analysis (lazy invalidation: only a later store
overwrites it). -/
theorem analysis_cache_policy :
    (∀ use_multi_role env₁ env₂ sd (hd : List HistoryBar) (si : Option StockInfo) s₀ r₁,
      env₂.today = env₁.today →
      env₂.now - env₁.now < CACHE_EXPIRY →
      cacheGet (dispatchAnalyze use_multi_role env₁ sd hd si s₀).2.cache
        (modeKey use_multi_role sd.code env₁.today) = some (r₁, env₁.now) →
      (dispatchAnalyze use_multi_role env₁ sd hd si s₀).1 = .ok r₁ ∧
      dispatchAnalyze use_multi_role env₂ sd hd si
          (dispatchAnalyze use_multi_role env₁ sd hd si s₀).2 =
        (.ok r₁, (dispatchAnalyze use_multi_role env₁ sd hd si s₀).2)) ∧
    (∀ use_multi_role env sd (hd : List HistoryBar) (si : Option StockInfo) s,
      (∃ r, cacheFresh s.cache (modeKey use_multi_role sd.code env.today) env.now = some r) ↔
      (dispatchAnalyze use_multi_role env sd hd si s).2.calls = s.calls) ∧
    (∀ env sd (hd : List HistoryBar) (si : Option StockInfo) s r₀ t₀,
      cacheGet s.cache (singleKey sd.code env.today) = some (r₀, t₀) →
      CACHE_EXPIRY ≤ env.now - t₀ →
      env.oracle analystSystemMessage (LLMService.build_analysis_prompt sd hd si) =
        .error .backendError →
      cacheGet (LLMService.analyze_stock env sd hd si s).2.cache
        (singleKey sd.code env.today) = some (r₀, t₀)) := by
  refine ⟨?_, ?_, ?_⟩
  · intro m env₁ env₂ sd hd si s₀ r₁ htoday hlt hget
    have hA : (dispatchAnalyze m env₁ sd hd si s₀).1 = .ok r₁ := by
      cases m
      · exact analyze_stock_stored_ok env₁ sd hd si s₀ r₁ hget
      · exact multi_analyze_stored_ok env₁ sd hd si s₀ r₁ hget
    refine ⟨hA, ?_⟩
    have hfresh : cacheFresh (dispatchAnalyze m env₁ sd hd si s₀).2.cache
        (modeKey m sd.code env₂.today) env₂.now = some r₁ := by
      rw [htoday]
      simp only [cacheFresh, hget]
      rw [if_pos hlt]
    cases m
    · show LLMService.analyze_stock env₂ sd hd si _ = _
      unfold LLMService.analyze_stock
      simp only [show modeKey false sd.code env₂.today = singleKey sd.code env₂.today from rfl]
        at hfresh
      simp only [hfresh]
    · show MultiRoleAnalyzer.analyze env₂ sd hd si _ = _
      unfold MultiRoleAnalyzer.analyze
      simp only [show modeKey true sd.code env₂.today = multiKey sd.code env₂.today from rfl]
        at hfresh
      simp only [hfresh]
  · intro m env sd hd si s
    constructor
    · rintro ⟨r, hr⟩
      cases m
      · show (LLMService.analyze_stock env sd hd si s).2.calls = s.calls
        unfold LLMService.analyze_stock
        simp only [show modeKey false sd.code env.today = singleKey sd.code env.today from rfl]
          at hr
        simp only [hr]
      · show (MultiRoleAnalyzer.analyze env sd hd si s).2.calls = s.calls
        unfold MultiRoleAnalyzer.analyze
        simp only [show modeKey true sd.code env.today = multiKey sd.code env.today from rfl]
          at hr
        simp only [hr]
    · intro hcalls
      cases hfr : cacheFresh s.cache (modeKey m sd.code env.today) env.now with
      | some r => exact ⟨r, rfl⟩
      | none =>
        exfalso
        cases m
        · have hgrow := analyze_stock_calls_miss env sd hd si s
            (by simpa [modeKey] using hfr)
          have hcalls' : (LLMService.analyze_stock env sd hd si s).2.calls = s.calls := hcalls
          rw [hcalls'] at hgrow
          omega
        · have hgrow := multi_analyze_calls_miss env sd hd si s
            (by simpa [modeKey] using hfr)
          have hcalls' : (MultiRoleAnalyzer.analyze env sd hd si s).2.calls = s.calls := hcalls
          rw [hcalls'] at hgrow
          exact lt_irrefl _ hgrow
  · intro env sd hd si s r₀ t₀ hget hexp ho
    have hcf : cacheFresh s.cache (singleKey sd.code env.today) env.now = none := by
      simp only [cacheFresh, hget]
      rw [if_neg]
      exact not_lt.mpr hexp
    unfold LLMService.analyze_stock llmInvoke
    simp only [hcf, ho]
    exact hget

/-- Claim C2 witness: a successful single-shot call from the empty
cache, a second call one second later returning the cached result with
no state change (hence zero model calls), and an expired entry left in
place by a failed call a day later. -/
theorem analysis_cache_policy_witness :
    (dispatchAnalyze false envOk2 sd0 [] none
        (dispatchAnalyze false envOk sd0 [] none s0).2 =
      (.ok recEmptyObj, (dispatchAnalyze false envOk sd0 [] none s0).2)) ∧
    (∃ r, cacheFresh (dispatchAnalyze false envOk sd0 [] none s0).2.cache
      (modeKey false sd0.code envOk2.today) envOk2.now = some r) ∧
    cacheGet (LLMService.analyze_stock envLate sd0 [] none
        { cache := [(singleKey sd0.code envLate.today, (recEmptyObj, mkRat 0 1))],
          calls := [] }).2.cache
      (singleKey sd0.code envLate.today) = some (recEmptyObj, mkRat 0 1) := by
  have hlt : envOk2.now - envOk.now < CACHE_EXPIRY := by
    show mkRat 1 1 - mkRat 0 1 < mkRat 86400 1
    norm_num [Rat.mkRat_one]
  have h1 := analysis_cache_policy.1 false envOk envOk2 sd0 [] none s0 recEmptyObj rfl hlt rfl
  refine ⟨h1.2, ?_, ?_⟩
  · exact (analysis_cache_policy.2.1 false envOk2 sd0 [] none
      (dispatchAnalyze false envOk sd0 [] none s0).2).mpr (by rw [h1.2])
  · have hexp : CACHE_EXPIRY ≤ envLate.now - mkRat 0 1 := by
      show mkRat 86400 1 ≤ mkRat 86400 1 - mkRat 0 1
      norm_num [Rat.mkRat_one]
    exact analysis_cache_policy.2.2 envLate sd0 [] none _ recEmptyObj (mkRat 0 1) rfl hexp rfl

theorem countP_not_eq {α : Type} (l : List α) (p : α → Bool) :
    l.countP (fun a => !p a) = l.length - l.countP p := by
  induction l with
  | nil => rfl
  | cons a l ih =>
    have hle := List.countP_le_length (p := p) (l := l)
    cases h : p a
    all_goals simp [List.countP_cons, h, ih]
    all_goals try omega

/-- Claim C6: the batch runner yields exactly one `ResultRecord` per
input entity (one task per code over the pre-fetched dicts, so failures
never shrink the count or abort the batch); any exception an analysis
task raises is wrapped into a failure record for that entity; and when
exactly one entity's profile is absent from the bulk lookup while every
profiled entity has a quote and a successful analysis, the output has
exactly one failure record — the `未找到股票基本信息` one — and the
other N-1 records fully populated. -/
theorem batch_partial_failure_isolation (c : Collabs)
    (analyzer : StockData → List HistoryBar → Option StockInfo → Except PyErr Rec)
    (stock_codes : List String) (nowStr : String) :
    ((analyze_multiple_stocks c analyzer stock_codes nowStr).1 =
      stock_codes.map (analyzeTask analyzer (c.get_batch_stock_info stock_codes)
        (c.get_multiple_stocks_data (fullCodesOf (c.get_batch_stock_info stock_codes)))
        (c.get_batch_stock_history (fullCodesOf (c.get_batch_stock_info stock_codes)))
        nowStr)) ∧
    ((analyze_multiple_stocks c analyzer stock_codes nowStr).1.length = stock_codes.length) ∧
    (∀ (stock_infos : List (String × StockInfo)) (rt : List (String × StockData))
        (hist : List (String × List HistoryBar)) code info fc sd e,
      dictGet stock_infos code = some info → info.full_code = some fc →
      dictGet rt fc = some sd →
      analyzer sd ((dictGet hist fc).getD []) (some info) = .error e →
      analyzeTask analyzer stock_infos rt hist nowStr code =
        .failure code "未知" (pyErrString e)) ∧
    (∀ (stock_infos : List (String × StockInfo)) (rt : List (String × StockData))
        (hist : List (String × List HistoryBar)),
      stock_codes.countP (fun code => (dictGet stock_infos code).isNone) = 1 →
      (∀ code ∈ stock_codes, ∀ info, dictGet stock_infos code = some info →
        ∃ fc sd r, info.full_code = some fc ∧ dictGet rt fc = some sd ∧
          analyzer sd ((dictGet hist fc).getD []) (some info) = .ok r) →
      ((stock_codes.map (analyzeTask analyzer stock_infos rt hist nowStr)).countP
          ResultRecord.isFailure = 1 ∧
        (stock_codes.map (analyzeTask analyzer stock_infos rt hist nowStr)).countP
          ResultRecord.isProfileNotFound = 1 ∧
        (stock_codes.map (analyzeTask analyzer stock_infos rt hist nowStr)).countP
          (fun r => !r.isFailure) = stock_codes.length - 1)) := by
  refine ⟨rfl, ?_, ?_, ?_⟩
  · show (stock_codes.map _).length = stock_codes.length
    exact List.length_map _ _
  · intro stock_infos rt hist code info fc sd e hi hfc hsd herr
    simp [analyzeTask, hi, hfc, hsd, herr]
  · intro stock_infos rt hist h1 h2
    have key : ∀ code ∈ stock_codes,
        ResultRecord.isFailure (analyzeTask analyzer stock_infos rt hist nowStr code) =
          (dictGet stock_infos code).isNone ∧
        ResultRecord.isProfileNotFound (analyzeTask analyzer stock_infos rt hist nowStr code) =
          (dictGet stock_infos code).isNone := by
      intro code hc
      cases hi : dictGet stock_infos code with
      | none =>
        simp [analyzeTask, hi, ResultRecord.isFailure, ResultRecord.isProfileNotFound]
      | some info =>
        obtain ⟨fc, sd, r, hfc, hsd, hok⟩ := h2 code hc info hi
        simp [analyzeTask, hi, hfc, hsd, hok, ResultRecord.isFailure,
          ResultRecord.isProfileNotFound]
    have hfail : (stock_codes.map (analyzeTask analyzer stock_infos rt hist nowStr)).countP
        ResultRecord.isFailure = 1 := by
      rw [List.countP_map]
      rw [List.countP_congr (q := fun code => (dictGet stock_infos code).isNone) ?_]
      · exact h1
      · intro code hc
        simp only [Function.comp_apply]
        rw [(key code hc).1]
    have hpnf : (stock_codes.map (analyzeTask analyzer stock_infos rt hist nowStr)).countP
        ResultRecord.isProfileNotFound = 1 := by
      rw [List.countP_map]
      rw [List.countP_congr (q := fun code => (dictGet stock_infos code).isNone) ?_]
      · exact h1
      · intro code hc
        simp only [Function.comp_apply]
        rw [(key code hc).2]
    refine ⟨hfail, hpnf, ?_⟩
    rw [countP_not_eq, List.length_map, hfail]

/-- Claim C10 witness: concrete fallback run from the empty cache,
followed by a second staged call. -/
theorem staged_fallback_leaves_staged_key_unset_witness :
    cacheGet (MultiRoleAnalyzer.analyze envFail sd0 [] none s0).2.cache
      (multiKey sd0.code envFail.today) = none ∧
    (MultiRoleAnalyzer.analyze envFail sd0 [] none s0).2.calls.length <
      (MultiRoleAnalyzer.analyze envFail sd0 [] none
        (MultiRoleAnalyzer.analyze envFail sd0 [] none s0).2).2.calls.length := by
  have h := staged_fallback_leaves_staged_key_unset envFail envFail sd0 [] none s0
    .backendError
    (MultiRoleAnalyzer.graph_invoke envFail (MultiRoleAnalyzer.initialState sd0 [] none) s0).2
    rfl rfl rfl
  exact ⟨h.1, h.2.2.2⟩

/-- Claim C6 witness: two entities of which exactly one has no profile;
the batch yields two records, one failure (`未找到股票基本信息`) and one
fully populated. -/
theorem batch_partial_failure_isolation_witness :
    ((analyze_multiple_stocks collabs0 analyzerOk ["600000", "000001"] "d").1.length = 2) ∧
    ((["600000", "000001"].map (analyzeTask analyzerOk [("600000", infoA)]
        [("sh600000", sd0)] [] "d")).countP ResultRecord.isFailure = 1 ∧
      (["600000", "000001"].map (analyzeTask analyzerOk [("600000", infoA)]
        [("sh600000", sd0)] [] "d")).countP ResultRecord.isProfileNotFound = 1 ∧
      (["600000", "000001"].map (analyzeTask analyzerOk [("600000", infoA)]
        [("sh600000", sd0)] [] "d")).countP (fun r => !r.isFailure) = 2 - 1) := by
  have h := batch_partial_failure_isolation collabs0 analyzerOk ["600000", "000001"] "d"
  refine ⟨h.2.1, ?_⟩
  refine h.2.2.2 [("600000", infoA)] [("sh600000", sd0)] [] rfl ?_
  intro code hc info hi
  cases hc with
  | head =>
    rw [show dictGet [("600000", infoA)] "600000" = some infoA from rfl] at hi
    injection hi with hi
    subst hi
    exact ⟨"sh600000", sd0, recEmptyObj, rfl, rfl, rfl⟩
  | tail _ hc2 =>
    cases hc2 with
    | head =>
      rw [show dictGet [("600000", infoA)] "000001" = none from rfl] at hi
      exact Option.noConfusion hi
    | tail _ hc3 => cases hc3

/-- Claim C9: one batch run issues exactly one bulk quote fetch and one
bulk history fetch, and zero per-entity quote/history calls; the
per-entity tasks are functions of the three pre-fetched dicts only (by
their type they have no access to the collaborators). -/
theorem batch_bulk_fetch_once (c : Collabs)
    (analyzer : StockData → List HistoryBar → Option StockInfo → Except PyErr Rec)
    (stock_codes : List String) (nowStr : String) :
    ((analyze_multiple_stocks c analyzer stock_codes nowStr).2.countP
      CollabCall.isQuoteBatch = 1) ∧
    ((analyze_multiple_stocks c analyzer stock_codes nowStr).2.countP
      CollabCall.isHistoryBatch = 1) ∧
    ((analyze_multiple_stocks c analyzer stock_codes nowStr).2.countP
      CollabCall.isPerEntity = 0) ∧
    ((analyze_multiple_stocks c analyzer stock_codes nowStr).1 =
      stock_codes.map (analyzeTask analyzer (c.get_batch_stock_info stock_codes)
        (c.get_multiple_stocks_data (fullCodesOf (c.get_batch_stock_info stock_codes)))
        (c.get_batch_stock_history (fullCodesOf (c.get_batch_stock_info stock_codes)))
        nowStr)) :=
  ⟨rfl, rfl, rfl, rfl⟩

set_option maxRecDepth 100000 in
/-- Claim C8: writing three records with batch size two against a sink
that does not yet exist — a first flush of two records, a second flush
of the remaining one, then the close — produces the opening bracket on
the first flush, comma-separated records on the next, the closing
bracket on close; the closed document parses as one JSON array of
exactly the three records in flush order, and the never-closed sink is
not valid JSON. -/
theorem incremental_write_three_records :
    save_results [sample1, sample2] none =
      some ("[\n" ++ dumps sample1 ++ ",\n" ++ dumps sample2) ∧
    save_results [sample3] (save_results [sample1, sample2] none) =
      some ("[\n" ++ dumps sample1 ++ ",\n" ++ dumps sample2 ++ ",\n" ++ dumps sample3) ∧
    runFlushes [sample1, sample2, sample3] 2 none =
      save_results [sample3] (save_results [sample1, sample2] none) ∧
    runIncremental [sample1, sample2, sample3] 2 none =
      some ("[\n" ++ dumps sample1 ++ ",\n" ++ dumps sample2 ++ ",\n" ++ dumps sample3 ++
        "\n]") ∧
    (runIncremental [sample1, sample2, sample3] 2 none).map loads =
      some (.ok (.arr [.obj (recordFields sample1), .obj (recordFields sample2),
        .obj (recordFields sample3)])) ∧
    (runFlushes [sample1, sample2, sample3] 2 none).map loads =
      some (.error .jsonDecodeError) :=
  ⟨rfl, rfl, rfl, rfl, rfl, rfl⟩

end TTrading
